import Mathlib

/-!
# NyxVaulta — verification of the bookmark-manager core

Shallow embedding of the parts of the NyxVaulta repository that carry the
behavioral claims: the two mutation endpoints (`POST /api/bookmarks`,
`PATCH /api/bookmarks/{id}`), the session-gate middleware with its dual
cookie writes, the client data hook (`useBookmarks`), the dashboard's
filter/sort derivation, and the CSV export utility.

JSON/JavaScript values that flow through request bodies are modelled by
`JsValue` with JavaScript truthiness; database rows are modelled with their
mutable columns holding `JsValue` (the routes pass body values through
unchanged), and the external record store's filtered update/insert behavior
is made explicit as list transformations.
-/

/-- A JSON/JavaScript value as it appears in request bodies and rows. -/
inductive JsValue where
  | null : JsValue
  | undefined : JsValue
  | bool : Bool → JsValue
  | num : Int → JsValue
  | str : String → JsValue
  | arr : List String → JsValue
deriving Repr, DecidableEq

/-- JavaScript truthiness of a `JsValue` (as used by `if (!title || !url)`
and `if ('folder_id' in body && body.folder_id)`). -/
def JsValue.truthy : JsValue → Bool
  | .null => false
  | .undefined => false
  | .bool b => b
  | .num n => n != 0
  | .str s => s != ""
  | .arr _ => true

/-- A JSON object (request body, update payload): an ordered key/value list. -/
abbrev JsObject := List (String × JsValue)

/-- Key presence in a JSON object: `'k' in body`. -/
def hasKey (body : JsObject) (k : String) : Bool :=
  body.any (fun p => p.1 == k)

/-- Field access `body.k` on a JSON object; a missing key reads as
`undefined`, as in JavaScript. -/
def getField (body : JsObject) (k : String) : JsValue :=
  match body.find? (fun p => p.1 == k) with
  | some p => p.2
  | none => .undefined

/-- A row of the `bookmarks` table.  `id`, `user_id` and `created_at` are
server-controlled; the remaining columns hold whatever JSON values the
routes wrote there. -/
structure Row where
  id : String
  user_id : String
  title : JsValue
  url : JsValue
  description : JsValue
  tags : JsValue
  folder_id : JsValue
  is_favorite : JsValue
  visit_count : JsValue
  created_at : String
deriving Repr, DecidableEq

/-- Outcome of an API route: `NextResponse.json(data)` on success, or
`NextResponse.json({ error }, { status })` on failure. -/
inductive ApiResponse where
  | ok : Row → ApiResponse
  | err : String → Nat → ApiResponse
deriving Repr, DecidableEq

/-- The PATCH handler's update-payload construction
(src/unnamed/part_018, lines 20–27): one `if ('k' in body)` per
whitelisted column, except that `folder_id` is additionally guarded by
truthiness (`if ('folder_id' in body && body.folder_id)`). -/
def buildUpdateData (body : JsObject) : JsObject :=
  let u0 : JsObject := []
  let u1 := if hasKey body "title" then u0 ++ [("title", getField body "title")] else u0
  let u2 := if hasKey body "url" then u1 ++ [("url", getField body "url")] else u1
  let u3 := if hasKey body "description" then
      u2 ++ [("description", getField body "description")] else u2
  let u4 := if hasKey body "is_favorite" then
      u3 ++ [("is_favorite", getField body "is_favorite")] else u3
  let u5 := if hasKey body "tags" then u4 ++ [("tags", getField body "tags")] else u4
  let u6 := if hasKey body "folder_id" && (getField body "folder_id").truthy then
      u5 ++ [("folder_id", getField body "folder_id")] else u5
  u6

/-- One column assignment `UPDATE ... SET k = v` of a row; a key that
is not a bookmark column leaves the row unchanged. -/
def applyField (r : Row) (kv : String × JsValue) : Row :=
  if kv.1 == "title" then { r with title := kv.2 }
  else if kv.1 == "url" then { r with url := kv.2 }
  else if kv.1 == "description" then { r with description := kv.2 }
  else if kv.1 == "is_favorite" then { r with is_favorite := kv.2 }
  else if kv.1 == "tags" then { r with tags := kv.2 }
  else if kv.1 == "folder_id" then { r with folder_id := kv.2 }
  else r

/-- Apply an update payload to a row, column by column. -/
def applyPayload (payload : JsObject) (r : Row) : Row :=
  payload.foldl applyField r

/-- The PATCH route's row filter: `.eq('id', id).eq('user_id', user.id)`. -/
def rowMatches (idParam uid : String) (r : Row) : Bool :=
  r.id == idParam && r.user_id == uid

/-- Error message produced by `.single()` when the filtered update did not
return exactly one row. -/
def singleRowErr : String := "JSON object requested, multiple (or no) rows returned"

/-- The PATCH handler (src/unnamed/part_018, first listing): reject without
a session; otherwise run the filtered update against the table and return
the single updated row, or throw (→ 500) when `.single()` does not see
exactly one row.  The update itself has already run against the store when
`.single()` fails, so the returned table is the updated one in every
authorized branch. -/
def PATCH (user : Option String) (idParam : String) (body : JsObject)
    (table : List Row) : ApiResponse × List Row :=
  match user with
  | none => (.err "Unauthorized" 401, table)
  | some uid =>
    let updateData := buildUpdateData body
    let table2 := table.map (fun r =>
      if rowMatches idParam uid r then applyPayload updateData r else r)
    match (table.filter (rowMatches idParam uid)).map (applyPayload updateData) with
    | [r] => (.ok r, table2)
    | _ => (.err singleRowErr 500, table2)

/-- The row a successful create stores: client-readable fields come from
the body's `{title, url, description, tags, folder_id}` destructuring, the
rest is forced server-side (`user_id: user.id, visit_count: 0,
is_favorite: false`) or assigned by the store (`id`, `created_at`). -/
def insertedRow (uid : String) (body : JsObject) (nid nca : String) : Row :=
  { id := nid
    user_id := uid
    title := getField body "title"
    url := getField body "url"
    description := getField body "description"
    tags := getField body "tags"
    folder_id := getField body "folder_id"
    is_favorite := .bool false
    visit_count := .num 0
    created_at := nca }

/-- The POST handler (src/unnamed/part_019): reject without a session
(401); reject when `!title || !url` (400); otherwise insert one row with
the server-forced defaults and return it.  `nid`/`nca` stand for the
store-assigned id and creation timestamp, and `ins` for the store's
verdict on the insert (an upstream error is rethrown → 500). -/
def POST (user : Option String) (body : JsObject) (table : List Row)
    (nid nca : String) (ins : Except String Unit) : ApiResponse × List Row :=
  match user with
  | none => (.err "Unauthorized" 401, table)
  | some uid =>
    if !(getField body "title").truthy || !(getField body "url").truthy then
      (.err "Title and URL are required" 400, table)
    else
      match ins with
      | .error e => (.err e 500, table)
      | .ok _ =>
        let row := insertedRow uid body nid nca
        (.ok row, table ++ [row])

/-! ## Session gate (src/middleware.ts) -/

/-- Whether the character list `s` starts with `pre`
(JavaScript `String.prototype.startsWith` on code points). -/
def charsStartWith : List Char → List Char → Bool
  | _, [] => true
  | [], _ :: _ => false
  | c :: cs, d :: ds => c == d && charsStartWith cs ds

/-- JavaScript `s.startsWith(pre)`. -/
def jsStartsWith (s pre : String) : Bool :=
  charsStartWith s.data pre.data

/-- Terminal action of the middleware for one request: a redirect, or the
pass-through response. -/
inductive GateDecision where
  | redirect : String → GateDecision
  | next : GateDecision
deriving Repr, DecidableEq

/-- The middleware's decision logic (src/middleware.ts, lines 76–88):
redirect unauthenticated `/dashboard*` requests to `/login`, redirect
authenticated `/login` requests to `/dashboard`, otherwise return the
pass-through response. -/
def middleware (user : Option String) (path : String) : GateDecision :=
  if user.isNone && jsStartsWith path "/dashboard" then .redirect "/login"
  else if user.isSome && path == "/login" then .redirect "/dashboard"
  else .next

/-- The `config.matcher` (`['/dashboard/:path*', '/login']`): the paths the
gate runs on — `/dashboard`, its sub-paths, and `/login`. -/
def matcherMatches (p : String) : Bool :=
  p == "/dashboard" || jsStartsWith p "/dashboard/" || p == "/login"

/-- Overwrite-or-append by name on a cookie jar, the semantics of
`request.cookies.set({name, value})` / `response.cookies.set(...)`. -/
def setEntry (jar : List (String × String)) (name value : String) :
    List (String × String) :=
  match jar with
  | [] => [(name, value)]
  | (k, w) :: t =>
    if k == name then (name, value) :: t else (k, w) :: setEntry t name value

/-- Read a cookie by name (`request.cookies.get(name)?.value`). -/
def jarGet (jar : List (String × String)) (name : String) : Option String :=
  match jar with
  | [] => none
  | (k, w) :: t => if k == name then some w else jarGet t name

/-- Cookie-visible state of the middleware: the in-flight request's jar,
the outbound response's jar, and a generation counter that increments each
time `NextResponse.next(...)` re-constructs the pass-through response. -/
structure GateState where
  reqCookies : List (String × String)
  resCookies : List (String × String)
  resGeneration : Nat
deriving Repr, DecidableEq

/-- The `get(name)` cookie operation handed to the identity-provider
client: reads from the request's jar. -/
def cookieGet (st : GateState) (name : String) : Option String :=
  jarGet st.reqCookies name

/-- The `set(name, value, options)` cookie operation (src/middleware.ts,
lines 36–52): write the request jar, re-construct the pass-through
response (a fresh response carries no cookies), then write the new
response's jar. -/
def cookieSet (st : GateState) (name value : String) : GateState :=
  { reqCookies := setEntry st.reqCookies name value
    resCookies := setEntry [] name value
    resGeneration := st.resGeneration + 1 }

/-- The `remove(name, options)` cookie operation (src/middleware.ts,
lines 54–70): identical to `set` with the empty string as value. -/
def cookieRemove (st : GateState) (name : String) : GateState :=
  { reqCookies := setEntry st.reqCookies name ""
    resCookies := setEntry [] name ""
    resGeneration := st.resGeneration + 1 }

/-! ## Client data hook (src/hooks/useBookmarks.ts) -/

/-- The client-side bookmark shape (src/unnamed/part_002, lib/types
`Bookmark`), restricted to the fields the client code reads. -/
structure Bookmark where
  id : String
  title : String
  url : String
  description : Option String
  tags : Option (List String)
  is_favorite : Bool
  created_at : String
deriving Repr, DecidableEq

/-- State held by the `useBookmarks` hook: the record mirror, the loading
flag, and the transient notifications raised so far. -/
structure HookState where
  bookmarks : List Bookmark
  loading : Bool
  toasts : List String
deriving Repr, DecidableEq

/-- One settled run of `fetchBookmarks` (src/hooks/useBookmarks.ts,
lines 24–38).  `result` is the record store's reply: either rows (possibly
a null `data`, read as `data || []`) or a thrown error.  Success replaces
the mirror; failure raises a toast and leaves the mirror alone; `finally`
clears the loading flag on both paths. -/
def fetchBookmarks (st : HookState)
    (result : Except String (Option (List Bookmark))) : HookState :=
  match result with
  | .ok data => { st with bookmarks := data.getD [], loading := false }
  | .error e => { st with toasts := st.toasts ++ [e], loading := false }

/-! ## Issued store queries (filter shape of delete vs update) -/

/-- What a fluent record-store call performs once executed. -/
inductive QueryAction where
  | selectAll : QueryAction
  | insertRow : JsObject → QueryAction
  | updateRows : JsObject → QueryAction
  | deleteRows : QueryAction
deriving Repr, DecidableEq

/-- A record-store query as the fluent builder accumulates it:
`supabase.from(t)` picks the table, the verb picks the action, and each
`.eq(col, val)` appends one equality filter. -/
structure StoreQuery where
  table : String
  action : QueryAction
  filters : List (String × String)
deriving Repr, DecidableEq

/-- The filter step `.eq(col, val)` on a query. -/
def StoreQuery.eq (q : StoreQuery) (col val : String) : StoreQuery :=
  { q with filters := q.filters ++ [(col, val)] }

/-- The query issued by the hook's `deleteBookmark`
(src/hooks/useBookmarks.ts, lines 72–80):
`supabase.from('bookmarks').delete().eq('id', id)`. -/
def deleteBookmarkQuery (id : String) : StoreQuery :=
  StoreQuery.eq { table := "bookmarks", action := .deleteRows, filters := [] } "id" id

/-- The query issued by the PATCH route's update
(src/unnamed/part_018, lines 29–35):
`.update(updateData).eq('id', id).eq('user_id', user.id)`. -/
def patchUpdateQuery (id uid : String) (body : JsObject) : StoreQuery :=
  StoreQuery.eq
    (StoreQuery.eq
      { table := "bookmarks", action := .updateRows (buildUpdateData body), filters := [] }
      "id" id)
    "user_id" uid

/-! ## Dashboard derived view (src/app/dashboard/page.tsx) -/

/-- Whether `sub` occurs as a contiguous run inside the second list. -/
def charsHasSub (sub : List Char) : List Char → Bool
  | [] => sub.isEmpty
  | c :: t => charsStartWith (c :: t) sub || charsHasSub sub t

/-- JavaScript `s.includes(sub)`. -/
def jsIncludes (s sub : String) : Bool :=
  charsHasSub sub.data s.data

/-- The `SORT_OPTIONS` constant (src/unnamed/part_003, lib/constants). -/
structure SortOptions where
  NEWEST : String
  OLDEST : String
  TITLE_ASC : String
  TITLE_DESC : String

/-- The value `SORT_OPTIONS = { NEWEST: 'newest', OLDEST: 'oldest',
TITLE_ASC: 'title', TITLE_DESC: 'title-desc' }`. -/
def SORT_OPTIONS : SortOptions :=
  { NEWEST := "newest", OLDEST := "oldest"
    TITLE_ASC := "title", TITLE_DESC := "title-desc" }

/-- Insert into a list already sorted by the comparator, keeping the new
element before comparator-equal ones. -/
def insertCmp (cmp : α → α → Int) (x : α) : List α → List α
  | [] => [x]
  | y :: ys => if cmp x y ≤ 0 then x :: y :: ys else y :: insertCmp cmp x ys

/-- Stable comparator sort, the guaranteed behavior of
`Array.prototype.sort` for a consistent comparator (ES2019 stability). -/
def sortByCmp (cmp : α → α → Int) : List α → List α
  | [] => []
  | x :: xs => insertCmp cmp x (sortByCmp cmp xs)

/-- The search predicate of the dashboard's filter: `query` is the
already-lowercased search text. -/
def matchesQuery (query : String) (b : Bookmark) : Bool :=
  jsIncludes b.title.toLower query ||
  jsIncludes b.url.toLower query ||
  (match b.description with
   | some d => jsIncludes d.toLower query
   | none => false) ||
  (match b.tags with
   | some ts => ts.any (fun tag => jsIncludes tag.toLower query)
   | none => false)

/-- The dashboard's `filteredAndSortedBookmarks` memo
(src/app/dashboard/page.tsx, lines 28–62).  `lc` stands for
`String.prototype.localeCompare` and `getTime` for
`new Date(s).getTime()`, both external to the repository. -/
def filteredAndSortedBookmarks (lc : String → String → Int)
    (getTime : String → Int) (bookmarks : List Bookmark)
    (searchQuery : String) (sortBy : String) (showFavoritesOnly : Bool) :
    List Bookmark :=
  let filtered := bookmarks
  let filtered := if searchQuery != "" then
      let query := searchQuery.toLower
      filtered.filter (matchesQuery query)
    else filtered
  let filtered := if showFavoritesOnly then
      filtered.filter (fun b => b.is_favorite)
    else filtered
  if sortBy == SORT_OPTIONS.NEWEST then
    sortByCmp (fun a b => getTime b.created_at - getTime a.created_at) filtered
  else if sortBy == SORT_OPTIONS.OLDEST then
    sortByCmp (fun a b => getTime a.created_at - getTime b.created_at) filtered
  else if sortBy == SORT_OPTIONS.TITLE_ASC then
    sortByCmp (fun a b => lc a.title b.title) filtered
  else if sortBy == SORT_OPTIONS.TITLE_DESC then
    sortByCmp (fun a b => lc b.title a.title) filtered
  else filtered

/-- The derived view as the specification words it: keep, for a non-empty
search text, exactly the records whose lowercased title, url, description
or some tag contains the lowercased search text; then keep only favorites
when the flag is set; then sort by the selected key (creation time
descending/ascending, or locale-aware title compare, reversed for
`title-desc`). -/
def specDerivedView (lc : String → String → Int) (getTime : String → Int)
    (records : List Bookmark) (searchText : String) (sortKey : String)
    (favoritesOnly : Bool) : List Bookmark :=
  let kept := if searchText != "" then
      records.filter (matchesQuery searchText.toLower)
    else records
  let kept := if favoritesOnly then kept.filter (fun b => b.is_favorite) else kept
  if sortKey == "newest" then
    sortByCmp (fun a b => getTime b.created_at - getTime a.created_at) kept
  else if sortKey == "oldest" then
    sortByCmp (fun a b => getTime a.created_at - getTime b.created_at) kept
  else if sortKey == "title" then
    sortByCmp (fun a b => lc a.title b.title) kept
  else if sortKey == "title-desc" then
    sortByCmp (fun a b => lc b.title a.title) kept
  else kept

/-! ## CSV export (src/unnamed/part_001, lib/utils) -/

/-- The `CSV_HEADERS` constant (src/unnamed/part_003, lib/constants). -/
def CSV_HEADERS : List String :=
  ["Title", "URL", "Description", "Tags", "Favorite", "Created"]

/-- One row of cell texts for a bookmark, as `bookmarksToCSV` builds it;
`dateFmt` stands for `formatDate(-, DATE_FORMAT.SHORT)`, whose locale
rendering is external (`Intl`). -/
def csvCells (dateFmt : String → String) (b : Bookmark) : List String :=
  [b.title,
   b.url,
   b.description.getD "",
   String.intercalate "; " (b.tags.getD []),
   if b.is_favorite then "Yes" else "No",
   dateFmt b.created_at]

/-- The `bookmarksToCSV` utility (src/unnamed/part_001, lines 40–54): header line, then
one line per bookmark with every cell wrapped in double quotes. -/
def bookmarksToCSV (dateFmt : String → String) (bookmarks : List Bookmark) :
    String :=
  let rows := bookmarks.map (csvCells dateFmt)
  String.intercalate "\n"
    (String.intercalate "," CSV_HEADERS ::
      rows.map (fun row =>
        String.intercalate "," (row.map (fun cell => "\"" ++ cell ++ "\""))))

/-! ## Helper lemmas -/

theorem map_id_of {α : Type} (f : α → α) (l : List α)
    (h : ∀ a ∈ l, f a = a) : l.map f = l := by
  induction l with
  | nil => rfl
  | cons x xs ih =>
    simp only [List.map_cons]
    rw [h x (by simp), ih (fun a ha => h a (by simp [ha]))]

theorem filter_nil_of {α : Type} (p : α → Bool) (l : List α)
    (h : ∀ a ∈ l, p a = false) : l.filter p = [] := by
  induction l with
  | nil => rfl
  | cons x xs ih =>
    simp only [List.filter_cons, h x (by simp), Bool.false_eq_true, if_false]
    exact ih (fun a ha => h a (by simp [ha]))

theorem jarGet_setEntry (jar : List (String × String)) (name value : String) :
    jarGet (setEntry jar name value) name = some value := by
  induction jar with
  | nil => simp [setEntry, jarGet]
  | cons kv t ih =>
    obtain ⟨k, w⟩ := kv
    by_cases hk : k = name
    · simp [setEntry, hk, jarGet]
    · simp only [setEntry, jarGet, beq_iff_eq, hk, if_false]
      exact ih

/-- The protected area of the claim: `/dashboard` and its sub-paths. -/
def underProtectedArea (p : String) : Bool :=
  p == "/dashboard" || jsStartsWith p "/dashboard/"

theorem charsStartWith_append (l p q : List Char)
    (h : charsStartWith l (p ++ q) = true) : charsStartWith l p = true := by
  induction p generalizing l with
  | nil => cases l <;> rfl
  | cons c cs ih =>
    cases l with
    | nil => simp [charsStartWith] at h
    | cons d ds =>
      simp only [List.cons_append, charsStartWith, Bool.and_eq_true] at h ⊢
      exact ⟨h.1, ih ds h.2⟩

theorem startsWith_sub_dashboard (p : String)
    (h : jsStartsWith p "/dashboard/" = true) :
    jsStartsWith p "/dashboard" = true := by
  have hd : "/dashboard/".data = "/dashboard".data ++ ['/'] := by decide
  unfold jsStartsWith at h ⊢
  rw [hd] at h
  exact charsStartWith_append _ _ _ h

/-! ## Claim theorems -/

/-- C1: a partial update performed as session identity `A` against record
id `R` touches only rows matching both `id = R` and `user_id = A`; in
particular, when no row with id `R` is owned by `A`, the handler returns
the propagated not-found/denied error and the table — `R` included — is
left completely unchanged. -/
theorem patch_owner_scoped (A R : String) (body : JsObject) (table : List Row) :
    (PATCH (some A) R body table).2 =
      table.map (fun r =>
        if rowMatches R A r then applyPayload (buildUpdateData body) r else r)
    ∧ ((∀ r ∈ table, r.id = R → r.user_id ≠ A) →
        PATCH (some A) R body table = (.err singleRowErr 500, table)) := by
  have hframe : (PATCH (some A) R body table).2 =
      table.map (fun r =>
        if rowMatches R A r then applyPayload (buildUpdateData body) r else r) := by
    unfold PATCH
    dsimp only
    split <;> rfl
  refine ⟨hframe, fun h => ?_⟩
  have hfalse : ∀ r ∈ table, rowMatches R A r = false := by
    intro r hr
    unfold rowMatches
    cases hid : (r.id == R) with
    | false => simp
    | true =>
      have : r.user_id ≠ A := h r hr (by simpa using hid)
      simp [this]
  have hfil : table.filter (rowMatches R A) = [] :=
    filter_nil_of _ _ hfalse
  have hmap : table.map (fun r =>
      if rowMatches R A r then applyPayload (buildUpdateData body) r else r) = table :=
    map_id_of _ _ (fun r hr => by rw [hfalse r hr]; rfl)
  unfold PATCH
  dsimp only
  rw [hfil, hmap]
  rfl

/-- A bookmark row owned by user `u1`, used as concrete test data. -/
def rowU1 : Row :=
  { id := "b1", user_id := "u1", title := .str "Docs"
    url := .str "https://example.com", description := .null
    tags := .arr [], folder_id := .null, is_favorite := .bool false
    visit_count := .num 0, created_at := "2026-01-01T00:00:00Z" }

/-- C1 witness: user `u2` attempting `{title: "hijack"}` on `u1`'s record
gets the error and leaves the table unchanged. -/
theorem patch_owner_scoped_witness :
    PATCH (some "u2") "b1" [("title", JsValue.str "hijack")] [rowU1] =
      (.err singleRowErr 500, [rowU1]) :=
  (patch_owner_scoped "u2" "b1" [("title", JsValue.str "hijack")] [rowU1]).2
    (by decide)

/-- C2: two create calls under the same session whose bodies agree on the
fields the handler actually reads (`title`, `url`, `description`, `tags`,
`folder_id`) — i.e. differ only in injected `user_id`-like, `is_favorite`
or `visit_count` fields — produce identical outcomes; and every successful
create stores and returns a row with `user_id` equal to the session
identity, `is_favorite = false` and `visit_count = 0`. -/
theorem post_ignores_client_identity (uid : String) (b1 b2 : JsObject)
    (table : List Row) (nid nca : String) (ins : Except String Unit)
    (h : ∀ k ∈ ["title", "url", "description", "tags", "folder_id"],
        getField b1 k = getField b2 k) :
    POST (some uid) b1 table nid nca ins = POST (some uid) b2 table nid nca ins
    ∧ (∀ row tbl, POST (some uid) b1 table nid nca ins = (.ok row, tbl) →
        row.user_id = uid ∧ row.is_favorite = .bool false ∧
        row.visit_count = .num 0 ∧ tbl = table ++ [row]) := by
  have ht := h "title" (by simp)
  have hu := h "url" (by simp)
  have hd := h "description" (by simp)
  have htg := h "tags" (by simp)
  have hf := h "folder_id" (by simp)
  constructor
  · unfold POST insertedRow
    rw [ht, hu, hd, htg, hf]
  · intro row tbl heq
    unfold POST at heq
    dsimp only at heq
    split at heq
    · simp at heq
    · cases ins with
      | error e => simp at heq
      | ok u =>
        dsimp only at heq
        rw [Prod.mk.injEq] at heq
        obtain ⟨h1, h2⟩ := heq
        cases h1
        refine ⟨rfl, rfl, rfl, h2.symm⟩

/-- C2 witness: injecting `user_id`, `is_favorite` and `visit_count` into
the body changes nothing, and the stored row carries the forced values. -/
theorem post_ignores_client_identity_witness :
    (POST (some "u1")
        [("title", JsValue.str "Docs"), ("url", JsValue.str "https://example.com"),
         ("user_id", JsValue.str "evil"), ("is_favorite", JsValue.bool true),
         ("visit_count", JsValue.num 99)]
        [] "b9" "2026-01-02T00:00:00Z" (.ok ()) =
      POST (some "u1")
        [("title", JsValue.str "Docs"), ("url", JsValue.str "https://example.com")]
        [] "b9" "2026-01-02T00:00:00Z" (.ok ()))
    ∧ (insertedRow "u1"
        [("title", JsValue.str "Docs"), ("url", JsValue.str "https://example.com"),
         ("user_id", JsValue.str "evil"), ("is_favorite", JsValue.bool true),
         ("visit_count", JsValue.num 99)]
        "b9" "2026-01-02T00:00:00Z").user_id = "u1" := by
  have := post_ignores_client_identity "u1"
    [("title", JsValue.str "Docs"), ("url", JsValue.str "https://example.com"),
     ("user_id", JsValue.str "evil"), ("is_favorite", JsValue.bool true),
     ("visit_count", JsValue.num 99)]
    [("title", JsValue.str "Docs"), ("url", JsValue.str "https://example.com")]
    [] "b9" "2026-01-02T00:00:00Z" (.ok ()) (by decide)
  exact ⟨this.1, rfl⟩

/-- C4: the create endpoint's full behavior — 401 and no insert without a
session; 400 and no insert when title or url is missing/empty; on success
exactly one row appended, with `user_id` forced to the session identity,
`is_favorite` to `false`, `visit_count` to `0`, and the stored row
(server-assigned id and creation time included) returned; any other
thrown error surfaces as a generic 500 with no insert. -/
theorem post_endpoint_behavior (user : Option String) (body : JsObject)
    (table : List Row) (nid nca : String) (ins : Except String Unit) :
    (user = none →
      POST user body table nid nca ins = (.err "Unauthorized" 401, table))
    ∧ (∀ uid, user = some uid →
        (((getField body "title").truthy = false ∨
            (getField body "url").truthy = false) →
          POST user body table nid nca ins =
            (.err "Title and URL are required" 400, table))
        ∧ ((getField body "title").truthy = true →
            (getField body "url").truthy = true →
            (∀ e, ins = .error e →
              POST user body table nid nca ins = (.err e 500, table))
            ∧ (ins = .ok () →
              POST user body table nid nca ins =
                (.ok (insertedRow uid body nid nca),
                 table ++ [insertedRow uid body nid nca])))) := by
  refine ⟨fun hu => by rw [hu]; rfl, fun uid hu => ?_⟩
  subst hu
  constructor
  · intro hval
    unfold POST
    dsimp only
    have : (!(getField body "title").truthy || !(getField body "url").truthy) = true := by
      rcases hval with hv | hv <;> simp [hv]
    rw [if_pos this]
  · intro hti hur
    have hcond : (!(getField body "title").truthy || !(getField body "url").truthy) = false := by
      simp [hti, hur]
    constructor
    · intro e he
      subst he
      unfold POST
      dsimp only
      rw [if_neg (by simp [hcond])]
    · intro hok
      subst hok
      unfold POST
      dsimp only
      rw [if_neg (by simp [hcond])]

/-- C4 witness: with a session and a valid body the handler returns the
stored row and appends exactly it; scenario 1 of the spec. -/
theorem post_endpoint_behavior_witness :
    POST (some "u1") [("title", JsValue.str "Docs"),
        ("url", JsValue.str "https://example.com")]
      [] "b7" "2026-01-03T00:00:00Z" (.ok ()) =
      (.ok (insertedRow "u1"
          [("title", JsValue.str "Docs"), ("url", JsValue.str "https://example.com")]
          "b7" "2026-01-03T00:00:00Z"),
       [insertedRow "u1"
          [("title", JsValue.str "Docs"), ("url", JsValue.str "https://example.com")]
          "b7" "2026-01-03T00:00:00Z"]) :=
  (((post_endpoint_behavior (some "u1")
      [("title", JsValue.str "Docs"), ("url", JsValue.str "https://example.com")]
      [] "b7" "2026-01-03T00:00:00Z" (.ok ())).2 "u1" rfl).2
    (by decide) (by decide)).2 rfl

/-- C3: on every matched path, the gate redirects an unauthenticated
request under the protected area to `/login`, redirects an authenticated
request to exactly `/login` over to `/dashboard`, and passes every other
matched path/session combination through unmodified. -/
theorem middleware_gate (user : Option String) (p : String)
    (hm : matcherMatches p = true) :
    (user = none → underProtectedArea p = true →
      middleware user p = .redirect "/login")
    ∧ (∀ u, user = some u → p = "/login" →
        middleware user p = .redirect "/dashboard")
    ∧ ((user = none → underProtectedArea p = false) →
       ((∃ u, user = some u) → p ≠ "/login") →
       middleware user p = .next) := by
  refine ⟨?_, ?_, ?_⟩
  · rintro rfl hp
    have hstart : jsStartsWith p "/dashboard" = true := by
      rcases (by simpa [underProtectedArea] using hp :
          p = "/dashboard" ∨ jsStartsWith p "/dashboard/" = true) with h | h
      · subst h; decide
      · exact startsWith_sub_dashboard p h
    simp [middleware, hstart]
  · rintro u rfl rfl
    rfl
  · intro h1 h2
    cases user with
    | some u =>
      have hne : p ≠ "/login" := h2 ⟨u, rfl⟩
      have hbe : (p == "/login") = false := by simpa using hne
      simp [middleware, hbe]
    | none =>
      have hp : underProtectedArea p = false := h1 rfl
      have hp' : ¬p = "/dashboard" ∧ ¬jsStartsWith p "/dashboard/" = true := by
        simpa [underProtectedArea] using hp
      have hlog : p = "/login" := by
        rcases (by simpa [matcherMatches] using hm :
            (p = "/dashboard" ∨ jsStartsWith p "/dashboard/" = true) ∨ p = "/login")
          with (h | h) | h
        · exact absurd h hp'.1
        · exact absurd h hp'.2
        · exact h
      subst hlog
      decide

/-- C3 witness: unauthenticated `/dashboard/anything` is redirected to
`/login` (scenario 6 of the spec). -/
theorem middleware_gate_witness :
    middleware none "/dashboard/anything" = .redirect "/login" :=
  (middleware_gate none "/dashboard/anything" (by decide)).1 rfl (by decide)

/-- C6: a single `set` of the gate's cookie bridge writes the named cookie
into the in-flight request's jar and the (freshly re-constructed)
response's jar, so both agree on its value afterwards, and the
pass-through response is re-built (generation counter bumps); the same
holds for `remove`, which writes the empty value. -/
theorem cookie_dual_write (st : GateState) (name value : String) :
    (jarGet (cookieSet st name value).reqCookies name = some value
     ∧ jarGet (cookieSet st name value).resCookies name = some value
     ∧ (cookieSet st name value).resGeneration = st.resGeneration + 1)
    ∧ (jarGet (cookieRemove st name).reqCookies name = some ""
     ∧ jarGet (cookieRemove st name).resCookies name = some ""
     ∧ (cookieRemove st name).resGeneration = st.resGeneration + 1) := by
  exact ⟨⟨jarGet_setEntry _ _ _, jarGet_setEntry _ _ _, rfl⟩,
    ⟨jarGet_setEntry _ _ _, jarGet_setEntry _ _ _, rfl⟩⟩

/-- C8: when a fetch settles with an error, the hook keeps the previously
fetched records untouched, appends a user-visible toast, and clears the
loading flag; and the loading flag is cleared whenever a fetch settles,
success or failure. -/
theorem fetch_failure_keeps_stale (st : HookState) (e : String) :
    (fetchBookmarks st (.error e)).bookmarks = st.bookmarks
    ∧ (fetchBookmarks st (.error e)).toasts = st.toasts ++ [e]
    ∧ (fetchBookmarks st (.error e)).loading = false
    ∧ ∀ r, (fetchBookmarks st r).loading = false := by
  refine ⟨rfl, rfl, rfl, fun r => ?_⟩
  cases r <;> rfl

/-- C9: the client-side delete targets the `bookmarks` table filtered by
record id only — no `user_id` filter is attached — while the update path's
query carries the id-and-owner double filter. -/
theorem delete_filters_by_id_only (id : String) :
    (deleteBookmarkQuery id).filters = [("id", id)]
    ∧ (deleteBookmarkQuery id).filters.all (fun f => f.1 != "user_id") = true
    ∧ (deleteBookmarkQuery id).action = .deleteRows
    ∧ (deleteBookmarkQuery id).table = "bookmarks"
    ∧ ∀ uid body, (patchUpdateQuery id uid body).filters =
        [("id", id), ("user_id", uid)] :=
  ⟨rfl, rfl, rfl, rfl, fun _ _ => rfl⟩

/-- Code-point three-way comparison of character lists. -/
def charListCmp : List Char → List Char → Ordering
  | [], [] => .eq
  | [], _ :: _ => .lt
  | _ :: _, [] => .gt
  | c :: cs, d :: ds =>
    if c < d then .lt else if d < c then .gt else charListCmp cs ds

/-- A concrete stand-in for `localeCompare`, agreeing with it on
same-case ASCII titles: code-point lexicographic comparison. -/
def lcAscii (s t : String) : Int :=
  match charListCmp s.data t.data with
  | .lt => -1
  | .eq => 0
  | .gt => 1

/-- Bookmark titled "Alpha", concrete test data. -/
def alphaBM : Bookmark :=
  { id := "ba", title := "Alpha", url := "https://a.example"
    description := none, tags := none, is_favorite := false
    created_at := "2026-01-01T00:00:00Z" }

/-- Bookmark titled "Beta", concrete test data. -/
def betaBM : Bookmark :=
  { id := "bb", title := "Beta", url := "https://b.example"
    description := none, tags := none, is_favorite := false
    created_at := "2026-01-02T00:00:00Z" }

/-- C7: the dashboard's derived view coincides, for every record set and
UI state, with the spec's pipeline — search filter (case-insensitive
substring over title/url/description/tags, only for non-empty search
text), then favorites filter, then the selected sort; and sorting
`[Alpha, Beta]` by `title-desc` yields `[Beta, Alpha]`. -/
theorem derived_view_matches_spec :
    (∀ (lc : String → String → Int) (getTime : String → Int)
        (bookmarks : List Bookmark) (searchQuery sortBy : String)
        (showFavoritesOnly : Bool),
      filteredAndSortedBookmarks lc getTime bookmarks searchQuery sortBy
          showFavoritesOnly =
        specDerivedView lc getTime bookmarks searchQuery sortBy showFavoritesOnly)
    ∧ filteredAndSortedBookmarks lcAscii (fun _ => 0) [alphaBM, betaBM] ""
        SORT_OPTIONS.TITLE_DESC false = [betaBM, alphaBM] := by
  constructor
  · intro lc getTime bookmarks searchQuery sortBy showFavoritesOnly
    rfl
  · decide

/-- C10: the CSV export is the header line
`Title,URL,Description,Tags,Favorite,Created` followed by one
double-quote-wrapped row per bookmark in input order, with a missing
description as the empty string, tags joined by `"; "`, and the favorite
flag as `Yes`/`No`. -/
theorem csv_export_shape (dateFmt : String → String)
    (bookmarks : List Bookmark) :
    bookmarksToCSV dateFmt bookmarks =
      String.intercalate "\n"
        ("Title,URL,Description,Tags,Favorite,Created" ::
          bookmarks.map (fun b =>
            String.intercalate ","
              ([b.title, b.url, b.description.getD "",
                String.intercalate "; " (b.tags.getD []),
                if b.is_favorite then "Yes" else "No",
                dateFmt b.created_at].map (fun cell => "\"" ++ cell ++ "\"")))) := by
  unfold bookmarksToCSV
  dsimp only
  rw [List.map_map]
  rfl

/-! ## Update-payload sparsity (C5) -/

theorem hasKey_nil (k : String) : hasKey [] k = false := rfl

theorem hasKey_cons (k' : String) (v : JsValue) (t : JsObject) (k : String) :
    hasKey ((k', v) :: t) k = ((k' == k) || hasKey t k) := by
  simp [hasKey]

theorem hasKey_build_title (body : JsObject) :
    hasKey (buildUpdateData body) "title" = hasKey body "title" := by
  unfold buildUpdateData
  dsimp only
  split_ifs <;> simp_all [hasKey_cons, hasKey_nil]

theorem hasKey_build_url (body : JsObject) :
    hasKey (buildUpdateData body) "url" = hasKey body "url" := by
  unfold buildUpdateData
  dsimp only
  split_ifs <;> simp_all [hasKey_cons, hasKey_nil]

theorem hasKey_build_description (body : JsObject) :
    hasKey (buildUpdateData body) "description" = hasKey body "description" := by
  unfold buildUpdateData
  dsimp only
  split_ifs <;> simp_all [hasKey_cons, hasKey_nil]

theorem hasKey_build_favorite (body : JsObject) :
    hasKey (buildUpdateData body) "is_favorite" = hasKey body "is_favorite" := by
  unfold buildUpdateData
  dsimp only
  split_ifs <;> simp_all [hasKey_cons, hasKey_nil]

theorem hasKey_build_tags (body : JsObject) :
    hasKey (buildUpdateData body) "tags" = hasKey body "tags" := by
  unfold buildUpdateData
  dsimp only
  split_ifs <;> simp_all [hasKey_cons, hasKey_nil]

theorem hasKey_build_folder (body : JsObject) :
    hasKey (buildUpdateData body) "folder_id" =
      (hasKey body "folder_id" && (getField body "folder_id").truthy) := by
  unfold buildUpdateData
  dsimp only
  split_ifs <;> simp_all [hasKey_cons, hasKey_nil]

theorem hasKey_build_other (body : JsObject) (k : String)
    (n1 : k ≠ "title") (n2 : k ≠ "url") (n3 : k ≠ "description")
    (n4 : k ≠ "is_favorite") (n5 : k ≠ "tags") (n6 : k ≠ "folder_id") :
    hasKey (buildUpdateData body) k = false := by
  have hb1 : (("title" : String) == k) = false :=
    beq_eq_false_iff_ne.mpr fun h => n1 h.symm
  have hb2 : (("url" : String) == k) = false :=
    beq_eq_false_iff_ne.mpr fun h => n2 h.symm
  have hb3 : (("description" : String) == k) = false :=
    beq_eq_false_iff_ne.mpr fun h => n3 h.symm
  have hb4 : (("is_favorite" : String) == k) = false :=
    beq_eq_false_iff_ne.mpr fun h => n4 h.symm
  have hb5 : (("tags" : String) == k) = false :=
    beq_eq_false_iff_ne.mpr fun h => n5 h.symm
  have hb6 : (("folder_id" : String) == k) = false :=
    beq_eq_false_iff_ne.mpr fun h => n6 h.symm
  unfold buildUpdateData
  dsimp only
  split_ifs <;>
    simp only [List.nil_append, List.cons_append, List.append_nil,
      hasKey_cons, hasKey_nil, hb1, hb2, hb3, hb4, hb5, hb6,
      Bool.false_or, Bool.or_false, Bool.or_self]

/-- C5 counterexample: a body whose `folder_id` key is present but `null`
— the key is present in the body, yet the built update payload does not
contain it (`if ('folder_id' in body && body.folder_id)`), refuting "a key
present in the body is always included". -/
theorem update_payload_folder_counterexample :
    hasKey [("folder_id", JsValue.null)] "folder_id" = true
    ∧ buildUpdateData [("folder_id", JsValue.null)] = []
    ∧ hasKey (buildUpdateData [("folder_id", JsValue.null)]) "folder_id" = false := by
  decide

/-- C5 (amended): the update payload contains a whitelisted key
`{title, url, description, is_favorite, tags}` iff it is present in the
body; `folder_id` is included iff it is present AND truthy; no key outside
the whitelist ever appears; and applying the payload of a `{title: v}`
body changes exactly the `title` column of the target row. -/
theorem update_payload_sparsity (body : JsObject) :
    (∀ k ∈ (["title", "url", "description", "is_favorite", "tags"] : List String),
        hasKey (buildUpdateData body) k = hasKey body k)
    ∧ hasKey (buildUpdateData body) "folder_id" =
        (hasKey body "folder_id" && (getField body "folder_id").truthy)
    ∧ (∀ k, k ∉ (["title", "url", "description", "is_favorite", "tags",
          "folder_id"] : List String) →
        hasKey (buildUpdateData body) k = false)
    ∧ ∀ v r, applyPayload (buildUpdateData [("title", v)]) r =
        { r with title := v } := by
  refine ⟨?_, hasKey_build_folder body, ?_, fun v r => rfl⟩
  · intro k hk
    simp only [List.mem_cons, List.not_mem_nil, or_false] at hk
    rcases hk with rfl | rfl | rfl | rfl | rfl
    exacts [hasKey_build_title body, hasKey_build_url body,
      hasKey_build_description body, hasKey_build_favorite body,
      hasKey_build_tags body]
  · intro k hk
    simp only [List.mem_cons, List.not_mem_nil, or_false, not_or] at hk
    obtain ⟨n1, n2, n3, n4, n5, n6⟩ := hk
    exact hasKey_build_other body k n1 n2 n3 n4 n5 n6

/-- C5 witness: with body `{title: "X", user_id: "evil"}`, `title` makes
it into the payload, the non-whitelisted `user_id` does not. -/
theorem update_payload_sparsity_witness :
    hasKey (buildUpdateData
        [("title", JsValue.str "X"), ("user_id", JsValue.str "evil")])
      "user_id" = false
    ∧ hasKey (buildUpdateData
        [("title", JsValue.str "X"), ("user_id", JsValue.str "evil")])
      "title" = true := by
  have h := update_payload_sparsity
    [("title", JsValue.str "X"), ("user_id", JsValue.str "evil")]
  refine ⟨h.2.2.1 "user_id" (by decide), ?_⟩
  rw [h.1 "title" (by simp)]
  decide
